import Mathlib

/-!
# Verification of the chaos-augmented load-testing and statistics engine

A shallow embedding, over exact rationals, of the metric-aggregation,
network-simulation and statistical-comparison code of the repository
(`test-scripts/`).  Python floats are modelled as `ℚ`; fallible code
(unguarded divisions, exceptions) is modelled with `Option`/sum types.
Each definition is translated from the named source function.
-/

namespace TccUsp

/-- Arithmetic mean of a list, `statistics.mean` / `np.mean`
(`sum / len`; the empty list, on which Python raises, is mapped to `0`
by rational division by zero — every use below is guarded exactly where
the source guards it). -/
def listMean (l : List ℚ) : ℚ := l.sum / l.length

/-- Minimum of a list, Python `min` (used only on non-empty lists in the
source; `0` stands for the empty case Python would reject). -/
def listMin : List ℚ → ℚ
  | [] => 0
  | x :: xs => xs.foldl min x

/-- Maximum of a list, Python `max` (same convention as `listMin`). -/
def listMax : List ℚ → ℚ
  | [] => 0
  | x :: xs => xs.foldl max x

/-- `statistics.median`: midpoint element of the ascending-sorted list for
odd length, average of the two middle elements for even length (the source
only calls it on non-empty data; the empty case yields `0` here). -/
def listMedian (l : List ℚ) : ℚ :=
  let s := l.insertionSort (· ≤ ·)
  let n := s.length
  if n % 2 = 1 then s.getD (n / 2) 0
  else (s.getD (n / 2 - 1) 0 + s.getD (n / 2) 0) / 2

/-- Sample variance with Bessel's correction: the square of
`statistics.stdev` / `np.std(·, ddof=1)`.  The sources only evaluate it on
lists of length ≥ 2 (guarded by `if len > 1` or a minimum-sample check);
shorter lists give `0` by rational division by zero. -/
def sampleVar (l : List ℚ) : ℚ :=
  (l.map (fun x => (x - listMean l) ^ 2)).sum / ((l.length : ℚ) - 1)

/-- Python `int()` on a rational value: truncation toward zero. -/
def ratTrunc (q : ℚ) : ℤ := if 0 ≤ q then q.floor else q.ceil

/-- `percentile(data, percent)` from
`backup-old-tests/simplified-academic-test.py` (the copy in
`backup-old-tests/test-orchestrated-academic.py` is identical):
empty data yields `0`; otherwise the data is sorted ascending,
`k = (n-1)*percent/100`, `f = int(k)`, `c = f+1`; if `c >= n` the largest
element is returned, else `data_sorted[f]*(c-k) + data_sorted[c]*(k-f)`.
Indexing is via `getD _ 0`: for `0 ≤ percent` (the range every claim and
every call site uses) the Python indices `f`, `c` are non-negative, so no
negative-index wraparound arises. -/
def percentile (data : List ℚ) (percent : ℚ) : ℚ :=
  if data = [] then 0
  else
    let ds := data.insertionSort (· ≤ ·)
    let n := ds.length
    let k : ℚ := ((n : ℚ) - 1) * percent / 100
    let f : ℤ := ratTrunc k
    let c : ℤ := f + 1
    if (n : ℤ) ≤ c then ds.getLastD 0
    else ds.getD f.toNat 0 * ((c : ℚ) - k) + ds.getD c.toNat 0 * (k - (f : ℚ))


/-- A per-attempt record as built by the load drivers
(`execute_real_network_request`, `test-orchestrated.py`'s `test_load`,
`load-test.py`'s `create_order`): success flag, HTTP status (0 on
exception), wall-clock duration in ms, optional error tag. -/
structure RequestResult where
  success : Bool
  status_code : ℕ
  duration_ms : ℚ
  error : Option String
deriving DecidableEq

/-- Latency block of `analyze_performance` in `test-orchestrated.py`
(avg, median, min, max, p95 — that function computes no stddev). -/
structure LatencyStats where
  avg_ms : ℚ
  median_ms : ℚ
  min_ms : ℚ
  max_ms : ℚ
  p95_ms : ℚ
deriving DecidableEq

/-- The metrics dict produced by `analyze_performance` (the fields that are
computed, not the timestamp/pattern strings). -/
structure PerfMetrics where
  total_requests : ℕ
  successful_requests : ℕ
  failed_requests : ℕ
  success_rate_percent : ℚ
  total_duration_seconds : ℚ
  throughput_req_per_sec : ℚ
  latency : LatencyStats
deriving DecidableEq

/-- `analyze_performance(results, total_duration)` from
`test-orchestrated.py` (lines 108-142): latency statistics over the
successful attempts' `duration_ms` only, all `0` when none succeeded;
`success_rate = (successful/total)*100` guarded by `if results`;
`throughput = successful/total_duration` guarded by `total_duration > 0`;
p95 is `sorted(durations)[int(len(durations)*0.95)]`. -/
def analyze_performance (results : List RequestResult) (total_duration : ℚ) :
    PerfMetrics :=
  let successful := results.filter (·.success)
  let failed := results.filter (fun r => !r.success)
  let durations := successful.map (·.duration_ms)
  let lat : LatencyStats :=
    if successful = [] then ⟨0, 0, 0, 0, 0⟩
    else
      { avg_ms := listMean durations
        median_ms := listMedian durations
        min_ms := listMin durations
        max_ms := listMax durations
        p95_ms :=
          if durations = [] then 0
          else (durations.insertionSort (· ≤ ·)).getD
            (ratTrunc ((durations.length : ℚ) * (95 / 100))).toNat 0 }
  { total_requests := results.length
    successful_requests := successful.length
    failed_requests := failed.length
    success_rate_percent :=
      if results = [] then 0
      else (successful.length : ℚ) / (results.length : ℚ) * 100
    total_duration_seconds := total_duration
    throughput_req_per_sec :=
      if 0 < total_duration then (successful.length : ℚ) / total_duration
      else 0
    latency := lat }

/-- The metric block built by `run_real_network_load_test` in
`academic_test_suite_real_network.py` (lines 139-160).  Unguarded Python
divisions and `statistics.mean`/`min`/`max` on an empty list raise, which
is modelled by `none`.  (`std_dev_ms` and the two `np.percentile` fields
involve a real square root resp. numpy interpolation and are not needed by
any claim, so they are not modelled.) -/
structure RealNetworkMetrics where
  total_requests : ℕ
  successful_requests : ℕ
  success_rate : Option ℚ
  throughput_req_s : Option ℚ
  mean_ms : Option ℚ
  median_ms : Option ℚ
  min_ms : Option ℚ
  max_ms : Option ℚ
deriving DecidableEq

/-- Aggregation step of `run_real_network_load_test`:
`successful_requests = #{r | r.success}`,
`success_rate = successful / len(results)` (unguarded),
`latencies = [r.duration_ms for r in results]` (ALL attempts),
`throughput = len(results) / total_duration` (unguarded, total attempts). -/
def run_real_network_metrics (results : List RequestResult)
    (total_duration : ℚ) : RealNetworkMetrics :=
  let successful := (results.filter (·.success)).length
  let latencies := results.map (·.duration_ms)
  { total_requests := results.length
    successful_requests := successful
    success_rate :=
      if results.length = 0 then none
      else some ((successful : ℚ) / (results.length : ℚ))
    throughput_req_s :=
      if total_duration = 0 then none
      else some ((results.length : ℚ) / total_duration)
    mean_ms := if latencies = [] then none else some (listMean latencies)
    median_ms := if latencies = [] then none else some (listMedian latencies)
    min_ms := if latencies = [] then none else some (listMin latencies)
    max_ms := if latencies = [] then none else some (listMax latencies) }

/-- A network degradation profile (`NetworkSimulator.profiles` entries in
`network_simulator.py`); the `description` string is omitted. -/
structure NetworkProfile where
  name : String
  base_latency_ms : ℚ
  jitter_ms : ℚ
  packet_loss_rate : ℚ
  bandwidth_limit_mbps : ℚ
deriving DecidableEq

/-- A server-load profile (`ServerLoadSimulator.load_profiles` entries). -/
structure ServerLoadProfile where
  name : String
  cpu_delay_ms : ℚ
  memory_pressure : ℚ
  io_delay_ms : ℚ
deriving DecidableEq

/-- The static `NetworkSimulator.profiles` table, looked up by key as
`apply_network_profile` does (`none` models the `ValueError` on an unknown
name). -/
def network_profiles (name : String) : Option NetworkProfile :=
  if name = "localhost" then some ⟨"Localhost", 1, 1/2, 1/1000, 1000⟩
  else if name = "lan" then some ⟨"Local Area Network", 5, 2, 1/100, 100⟩
  else if name = "wan_good" then some ⟨"Good WAN Connection", 50, 10, 1/50, 50⟩
  else if name = "wan_average" then
    some ⟨"Average WAN Connection", 100, 25, 1/20, 20⟩
  else if name = "wan_poor" then some ⟨"Poor WAN Connection", 200, 50, 1/10, 5⟩
  else if name = "mobile_4g" then some ⟨"Mobile 4G Network", 80, 30, 3/100, 25⟩
  else if name = "mobile_3g" then some ⟨"Mobile 3G Network", 150, 60, 2/25, 3⟩
  else if name = "satellite" then
    some ⟨"Satellite Connection", 600, 100, 3/20, 10⟩
  else none

/-- The static `ServerLoadSimulator.load_profiles` table. -/
def load_profiles (name : String) : Option ServerLoadProfile :=
  if name = "light" then some ⟨"Light Load", 5, 1/10, 10⟩
  else if name = "moderate" then some ⟨"Moderate Load", 20, 3/10, 50⟩
  else if name = "heavy" then some ⟨"Heavy Load", 100, 7/10, 200⟩
  else if name = "overloaded" then some ⟨"Overloaded", 500, 9/10, 1000⟩
  else none

/-- A composed scenario (`RealWorldSimulator.scenarios` entry): names of
the network profile and the server-load profile it applies. -/
structure Scenario where
  name : String
  network_profile : String
  server_load : String
deriving DecidableEq

/-- The static `RealWorldSimulator.scenarios` table. -/
def scenarios (name : String) : Option Scenario :=
  if name = "enterprise_lan" then some ⟨"Enterprise LAN", "lan", "light"⟩
  else if name = "cloud_datacenter" then
    some ⟨"Cloud Datacenter", "wan_good", "moderate"⟩
  else if name = "remote_office" then
    some ⟨"Remote Office", "wan_average", "moderate"⟩
  else if name = "mobile_users" then
    some ⟨"Mobile Users", "mobile_4g", "heavy"⟩
  else if name = "poor_connectivity" then
    some ⟨"Poor Connectivity", "wan_poor", "heavy"⟩
  else if name = "disaster_recovery" then
    some ⟨"Disaster Recovery", "satellite", "overloaded"⟩
  else none

/-- `NetworkSimulator.simulate_network_delay`: `0` with no active profile,
else `max 0 (base_latency_ms + N(0, jitter/3)) / 1000` seconds; the normal
variate drawn by `random.normalvariate(0, jitter/3)` enters as the
explicit sample `jitterSample`. -/
def simulate_network_delay (profile : Option NetworkProfile)
    (jitterSample : ℚ) : ℚ :=
  match profile with
  | none => 0
  | some p => max 0 (p.base_latency_ms + jitterSample) / 1000

/-- `NetworkSimulator.simulate_packet_loss`: `False` with no active
profile, else whether the uniform[0,1) draw `u` is below the profile's
loss rate. -/
def simulate_packet_loss (profile : Option NetworkProfile) (u : ℚ) : Bool :=
  match profile with
  | none => false
  | some p => u < p.packet_loss_rate

/-- `NetworkSimulator.simulate_bandwidth_limit`: `0` with no active
profile, else `max 0 (bytes*8 / (mbps*1e6) * N(1.0, 0.1))` seconds, the
variability draw entering as `bwSample`. -/
def simulate_bandwidth_limit (profile : Option NetworkProfile)
    (data_size_bytes : ℕ) (bwSample : ℚ) : ℚ :=
  match profile with
  | none => 0
  | some p =>
    max 0 ((data_size_bytes : ℚ) * 8 / (p.bandwidth_limit_mbps * 1000000)
      * bwSample)

/-- The response produced by the wrapped `request_func` when it is
invoked: status code and `len(response.content)`. -/
structure HttpResponse where
  status_code : ℕ
  content_size : ℕ
deriving DecidableEq

/-- Outcome of `simulate_real_request`: either the injected
`ConnectionError` for packet loss (its formatted message elided) or the
wrapped operation's response. -/
inductive SimOutcome where
  | packetLoss
  | response (resp : HttpResponse)
deriving DecidableEq

/-- Observable trace of one `NetworkSimulator.simulate_real_request` call:
its outcome, the network-delay and bandwidth-delay sleeps it performed
(`none` when the corresponding `time.sleep` was not reached or the delay
was not `> 0`), and whether the wrapped operation was invoked. -/
structure SimTrace where
  outcome : SimOutcome
  networkDelaySlept : Option ℚ
  bandwidthDelaySlept : Option ℚ
  opInvoked : Bool
deriving DecidableEq

/-- `NetworkSimulator.simulate_real_request` (lines 138-166): with no
active profile, pass through to the operation.  Otherwise: first draw `u`
and check packet loss — on loss raise `ConnectionError` immediately (no
delay slept, operation not called); else sleep the jittered network delay
if positive, invoke the operation, and sleep the bandwidth delay computed
from the response size if positive.  The random draws enter as explicit
samples; the operation's response enters as `op`. -/
def simulate_real_request (profile : Option NetworkProfile)
    (u jitterSample bwSample : ℚ) (op : HttpResponse) : SimTrace :=
  match profile with
  | none =>
    { outcome := .response op
      networkDelaySlept := none
      bandwidthDelaySlept := none
      opInvoked := true }
  | some p =>
    if simulate_packet_loss (some p) u then
      { outcome := .packetLoss
        networkDelaySlept := none
        bandwidthDelaySlept := none
        opInvoked := false }
    else
      let nd := simulate_network_delay (some p) jitterSample
      let bd := simulate_bandwidth_limit (some p) op.content_size bwSample
      { outcome := .response op
        networkDelaySlept := if 0 < nd then some nd else none
        bandwidthDelaySlept := if 0 < bd then some bd else none
        opInvoked := true }

/-- `ServerLoadSimulator.simulate_server_processing` (lines 243-262): with
no active load, nothing; else sleep `max 0 (cpu_delay * N(1.0,0.2))` then
`max 0 (io_delay * N(1.0,0.5))` (each only if positive); the two normal
variates enter as `cpuVariation`/`ioVariation`.  The returned list is the
sequence of sleeps performed, in seconds. -/
def simulate_server_processing (load : Option ServerLoadProfile)
    (cpuVariation ioVariation : ℚ) : List ℚ :=
  match load with
  | none => []
  | some l =>
    let cpu := max 0 (l.cpu_delay_ms / 1000 * cpuVariation)
    let io := max 0 (l.io_delay_ms / 1000 * ioVariation)
    (if 0 < cpu then [cpu] else []) ++ (if 0 < io then [io] else [])

/-- Mutable state of the global `RealWorldSimulator`:
`network_sim.active_profile`, `server_sim.active_load`,
`active_scenario`. -/
structure RealWorldState where
  networkProfile : Option NetworkProfile
  serverLoad : Option ServerLoadProfile
  activeScenario : Option String
deriving DecidableEq

/-- The freshly constructed simulator: no profile, no load, no scenario. -/
def initialRealWorldState : RealWorldState := ⟨none, none, none⟩

/-- `RealWorldSimulator.apply_real_world_scenario`: resolve the scenario,
apply its network profile and its server load, record the scenario name
(`none` models the `ValueError` for an unknown name; the catalog tables
make the two inner lookups total on the six scenarios). -/
def apply_real_world_scenario (st : RealWorldState) (name : String) :
    Option RealWorldState :=
  match scenarios name with
  | none => none
  | some sc =>
    match network_profiles sc.network_profile, load_profiles sc.server_load with
    | some np, some lp =>
      some { st with
        networkProfile := some np
        serverLoad := some lp
        activeScenario := some name }
    | _, _ => none

/-- `RealWorldSimulator.clear_simulation` (lines 352-356): calls
`network_sim.clear_simulation()` (which clears `active_profile`) and sets
`active_scenario = None`.  The server simulator's `active_load` is NOT
touched by the source, and this model reproduces that faithfully. -/
def clear_simulation (st : RealWorldState) : RealWorldState :=
  { st with networkProfile := none, activeScenario := none }

/-- One `RealWorldSimulator.simulate_real_world_request` call: the server
processing sleeps performed first, then the network-simulation trace. -/
def simulate_real_world_request (st : RealWorldState)
    (cpuVariation ioVariation u jitterSample bwSample : ℚ)
    (op : HttpResponse) : List ℚ × SimTrace :=
  (simulate_server_processing st.serverLoad cpuVariation ioVariation,
    simulate_real_request st.networkProfile u jitterSample bwSample op)

/-- `execute_real_network_request` from
`academic_test_suite_real_network.py` (lines 67-114), reduced to its
failure boundary: the wrapped call either returns a response (success iff
the status code is 200 or 201, no error tag) or raises — injected failure,
timeout or transport error, entering as `Except.error` with the exception
text — in which case the `except` block builds a record with
`success = False`, `status_code = 0`, the wall-clock time elapsed so far,
and `error = str(e)`.  (`create_order` in `load-test.py` has the same
boundary with `success = status == 200`.)  The measured duration enters as
the explicit `elapsed_ms`. -/
def execute_real_network_request (outcome : Except String HttpResponse)
    (elapsed_ms : ℚ) : RequestResult :=
  match outcome with
  | .ok resp =>
    { success := resp.status_code == 200 || resp.status_code == 201
      status_code := resp.status_code
      duration_ms := elapsed_ms
      error := none }
  | .error e =>
    { success := false
      status_code := 0
      duration_ms := elapsed_ms
      error := some e }

/-- The request loop of `run_real_network_load_test` (lines 115-135):
`num_requests` attempts, each producing exactly one record via
`execute_real_network_request`; attempt `i`'s outcome and elapsed time
enter as oracles indexed by `i`. -/
def run_real_network_load_test (num_requests : ℕ)
    (outcomes : ℕ → Except String HttpResponse) (elapsed_ms : ℕ → ℚ) :
    List RequestResult :=
  (List.range num_requests).map fun i =>
    execute_real_network_request (outcomes i) (elapsed_ms i)

/-- Outcome of the test-selection step of `compare_metrics`: the chosen
test's name, the `equal_var` flag passed to `scipy.stats.ttest_ind`
(`none` when no t-test is run), and whether a Levene
homogeneity-of-variance test was performed to choose that flag. -/
structure TestSelection where
  testName : String
  equalVar : Option Bool
  leveneRun : Bool
deriving DecidableEq

/-- Test selection in `StatisticalAnalyzer.compare_metrics`
(`archived_files/statistical_analysis.py`, lines 164-209): when both
groups test normal, run `levene(orch, choreo)` and call
`ttest_ind(..., equal_var = levene_p > alpha)`; otherwise run the
two-sided Mann-Whitney U test.  The Shapiro-Wilk normality verdicts and
the Levene p-value are produced by scipy's numeric routines and enter as
explicit inputs (`is_normal = p_value > alpha` is computed upstream in
`test_normality`). -/
def archived_select_test (bothNormal : Bool) (levene_p alpha : ℚ) :
    TestSelection :=
  if bothNormal then
    ⟨"Independent t-test", some (decide (alpha < levene_p)), true⟩
  else ⟨"Mann-Whitney U test", none, false⟩

/-- Test selection in `OptimizedStatisticalAnalyzer.compare_metrics`
(`statistical_analysis_optimized.py`, lines 159-169): when both groups
test normal it calls `stats.ttest_ind(orch_data, choreo_data)` with
scipy's default `equal_var=True` and performs NO Levene test; otherwise
the two-sided Mann-Whitney U test. -/
def optimized_select_test (bothNormal : Bool) : TestSelection :=
  if bothNormal then ⟨"Independent t-test", some true, false⟩
  else ⟨"Mann-Whitney U test", none, false⟩

/-- Pooled variance of two groups, the square of the `pooled_std`
computed by both analyzers:
`((n1-1)*std1^2 + (n2-1)*std2^2) / (n1+n2-2)`. -/
def pooled_var (g1 g2 : List ℚ) : ℚ :=
  (((g1.length : ℚ) - 1) * sampleVar g1
      + ((g2.length : ℚ) - 1) * sampleVar g2)
    / ((g1.length : ℚ) + (g2.length : ℚ) - 2)

/-- Value of a Cohen's d computation `d = (mean1 - mean2) / pooled_std`
where `pooled_std = sqrt(pooled_var)`.  The square root of a rational is
irrational in general, so the embedding records the exact data instead of
the float: `root num pv` denotes `num / sqrt pv` with `pv > 0` (the
divisor is nonzero — `sqrt pv > 0 ↔ pv > 0`); `exact q` is a value
produced without performing that division; `divByZero` records that the
division was performed with the zero divisor `sqrt 0 = 0` (in the source
an IEEE division of a float by numpy's `0.0`, yielding a non-finite
value). -/
inductive CohensD where
  | exact (q : ℚ)
  | root (num pooledVar : ℚ)
  | divByZero
deriving DecidableEq

/-- `StatisticalAnalyzer.calculate_cohens_d`
(`archived_files/statistical_analysis.py`, lines 264-275): computes
`pooled_std` and divides `mean1 - mean2` by it with NO guard — when the
pooled standard deviation is `0` the division is performed with a zero
divisor. -/
def calculate_cohens_d (g1 g2 : List ℚ) : CohensD :=
  if pooled_var g1 g2 = 0 then .divByZero
  else .root (listMean g1 - listMean g2) (pooled_var g1 g2)

/-- The effect-size step of `OptimizedStatisticalAnalyzer.compare_metrics`
(lines 171-179): `if pooled_std > 0: cohens_d = (mean - mean)/pooled_std
else: cohens_d = 0` — the division is guarded (the guard
`pooled_std > 0` is equivalently `pooled_var > 0`). -/
def optimized_cohens_d (g1 g2 : List ℚ) : CohensD :=
  if 0 < pooled_var g1 g2 then
    .root (listMean g1 - listMean g2) (pooled_var g1 g2)
  else .exact 0

/-- `StatisticalAnalyzer.interpret_effect_size`: classify `|d|` as
negligible/small/medium/large at thresholds 0.2, 0.5, 0.8.  (The
optimized analyzer computes no such category.) -/
def interpret_effect_size (d : ℚ) : String :=
  if |d| < 1/5 then "negligible"
  else if |d| < 1/2 then "small"
  else if |d| < 4/5 then "medium"
  else "large"

/-- Per-metric winner verdict of `compare_metrics`. -/
structure WinnerResult where
  winner : String
  improvement_percent : ℚ
deriving DecidableEq

/-- Winner/improvement block of
`OptimizedStatisticalAnalyzer.compare_metrics` (lines 181-192): for
latency-style metrics the strictly lower mean wins, otherwise the
strictly higher mean wins (ties go to `"choreographed"` in both
branches); `improvement = abs((om - cm) / max(om, cm)) * 100`.  A zero
denominator (numpy `nan`, no winner entry usable) is modelled `none`. -/
def optimized_winner (metric : String) (orch choreo : List ℚ) :
    Option WinnerResult :=
  let om := listMean orch
  let cm := listMean choreo
  if metric = "latencies" ∨ metric = "p95_latencies" then
    if max om cm = 0 then none
    else some ⟨if om < cm then "orchestrated" else "choreographed",
      |(om - cm) / max om cm| * 100⟩
  else
    if max om cm = 0 then none
    else some ⟨if cm < om then "orchestrated" else "choreographed",
      |(om - cm) / max om cm| * 100⟩

/-- Winner/improvement block of `StatisticalAnalyzer.compare_metrics`
(`archived_files/statistical_analysis.py`, lines 233-250): same strict
mean comparisons, but the improvement denominator is `max(om, cm)` for
latency-style metrics and `min(om, cm)` for the higher-is-better ones; a
zero denominator raises `ZeroDivisionError` (modelled `none`). -/
def archived_winner (metric : String) (orch choreo : List ℚ) :
    Option WinnerResult :=
  let om := listMean orch
  let cm := listMean choreo
  if metric = "latencies" ∨ metric = "p95_latencies" then
    if max om cm = 0 then none
    else some ⟨if om < cm then "orchestrated" else "choreographed",
      |om - cm| / max om cm * 100⟩
  else
    if min om cm = 0 then none
    else some ⟨if cm < om then "orchestrated" else "choreographed",
      |om - cm| / min om cm * 100⟩

end TccUsp

open TccUsp

/-- On non-negative rationals `ratTrunc` agrees with the floor. -/
theorem ratTrunc_eq_floor {q : ℚ} (h : 0 ≤ q) : ratTrunc q = ⌊q⌋ := by
  unfold ratTrunc
  rw [if_pos h, Rat.floor_def', Rat.floor_def]

/-- For a non-empty list, `getLastD` is the element at index `length - 1`. -/
theorem getLastD_eq_getD_length_sub_one :
    ∀ (l : List ℚ), l ≠ [] → l.getLastD 0 = l.getD (l.length - 1) 0
  | [], h => absurd rfl h
  | [_], _ => rfl
  | a :: b :: l, _ => by
    have ih := getLastD_eq_getD_length_sub_one (b :: l) (by simp)
    simpa [List.getLastD, List.getD] using ih

/-- C1: for a non-empty ascending-sorted list `v` of length `n` and a
percentile `p ∈ [0,100]`, with `k = (n-1)*p/100`, `f = ⌊k⌋`, `c = f+1`,
`percentile` returns `v[n-1]` when `c ≥ n` and
`v[f]*(c-k) + v[c]*(k-f)` otherwise; in particular
`percentile [10,20,30,40] 95 = 38.5`. -/
theorem percentile_spec (v : List ℚ) (p : ℚ) (hv : v ≠ [])
    (hs : v.Sorted (· ≤ ·)) (hp0 : 0 ≤ p) (_hp1 : p ≤ 100) :
    (((v.length : ℤ) ≤ ⌊((v.length : ℚ) - 1) * p / 100⌋ + 1 →
        percentile v p = v.getD (v.length - 1) 0) ∧
      (⌊((v.length : ℚ) - 1) * p / 100⌋ + 1 < (v.length : ℤ) →
        percentile v p =
          v.getD (⌊((v.length : ℚ) - 1) * p / 100⌋).toNat 0 *
              ((⌊((v.length : ℚ) - 1) * p / 100⌋ + 1 : ℤ) -
                ((v.length : ℚ) - 1) * p / 100) +
            v.getD (⌊((v.length : ℚ) - 1) * p / 100⌋ + 1).toNat 0 *
              (((v.length : ℚ) - 1) * p / 100 -
                (⌊((v.length : ℚ) - 1) * p / 100⌋ : ℚ)))) ∧
      percentile [10, 20, 30, 40] 95 = 77 / 2 := by
  have hlen : 1 ≤ v.length := List.length_pos.mpr hv
  have hk0 : 0 ≤ ((v.length : ℚ) - 1) * p / 100 := by
    have h1 : (0 : ℚ) ≤ (v.length : ℚ) - 1 := by
      have : (1 : ℚ) ≤ (v.length : ℚ) := by exact_mod_cast hlen
      linarith
    positivity
  have hsort : v.insertionSort (· ≤ ·) = v := hs.insertionSort_eq
  have htr : ratTrunc (((v.length : ℚ) - 1) * p / 100) =
      ⌊((v.length : ℚ) - 1) * p / 100⌋ := ratTrunc_eq_floor hk0
  refine ⟨⟨?_, ?_⟩, ?_⟩
  · intro hc
    unfold percentile
    rw [if_neg hv]
    simp only [hsort, htr]
    rw [if_pos hc, getLastD_eq_getD_length_sub_one v hv]
  · intro hc
    unfold percentile
    rw [if_neg hv]
    simp only [hsort, htr]
    rw [if_neg (not_le.mpr hc)]
  · rw [percentile]
    rw [if_neg (by simp)]
    norm_num [List.insertionSort, List.orderedInsert, ratTrunc, Rat.floor_def']
    simp only [show Int.toNat 2 = 2 from rfl, show Int.toNat 3 = 3 from rfl,
      List.getElem_cons_succ, List.getElem_cons_zero]
    norm_num

/-- C1 witness: `percentile_spec` evaluated on `[10,20,30,40]` at `p = 95`. -/
theorem percentile_spec_witness :
    percentile [10, 20, 30, 40] 95 = 77 / 2 :=
  (percentile_spec [10, 20, 30, 40] 95 (by decide) (by decide)
    (by norm_num) (by norm_num)).2

/-- C2 (counterexample): in `run_real_network_load_test`
(`academic_test_suite_real_network.py`) a batch in which no attempt
succeeded still reports the failed attempt's duration as the latency mean
(`latencies` ranges over ALL results), so the latency fields are not `0`. -/
theorem real_network_latency_fields_cex :
    ([⟨false, 0, 900, some "timeout"⟩] : List RequestResult).all
        (fun r => !r.success) = true ∧
      (run_real_network_metrics [⟨false, 0, 900, some "timeout"⟩] 1).mean_ms
        = some 900 ∧
      some (900 : ℚ) ≠ some (0 : ℚ) := by
  refine ⟨rfl, ?_, by norm_num⟩
  simp [run_real_network_metrics, listMean]

/-- C2 (amended): `analyze_performance` (`test-orchestrated.py`) computes
its latency statistics only from the successful attempts and reports all
zeros when none succeeded, while `run_real_network_load_test`
(`academic_test_suite_real_network.py`) computes its latency mean over the
durations of ALL attempts, failed ones included. -/
theorem latency_stats_only_over_successes (results : List RequestResult)
    (td : ℚ) :
    (analyze_performance results td).latency
        = (analyze_performance (results.filter (·.success)) td).latency ∧
      ((∀ r ∈ results, r.success = false) →
        (analyze_performance results td).latency = ⟨0, 0, 0, 0, 0⟩) ∧
      (results ≠ [] →
        (run_real_network_metrics results td).mean_ms
          = some (listMean (results.map (·.duration_ms)))) := by
  refine ⟨?_, ?_, ?_⟩
  · simp [analyze_performance, List.filter_filter]
  · intro h
    have hnil : results.filter (·.success) = [] := by
      rw [List.filter_eq_nil_iff]
      intro a ha
      simp [h a ha]
    simp [analyze_performance, hnil]
  · intro h
    have hmap : results.map (·.duration_ms) ≠ [] := by simpa using h
    simp [run_real_network_metrics, hmap]

/-- C2 witness: `latency_stats_only_over_successes` applied to an
all-failed batch and to a one-success batch. -/
theorem latency_stats_only_over_successes_witness :
    (analyze_performance [⟨false, 0, 50, some "e"⟩] 1).latency
        = ⟨0, 0, 0, 0, 0⟩ ∧
      (run_real_network_metrics [⟨true, 200, 80, none⟩] 1).mean_ms
        = some (listMean [80]) := by
  constructor
  · exact (latency_stats_only_over_successes [⟨false, 0, 50, some "e"⟩] 1).2.1
      (by simp)
  · have h := (latency_stats_only_over_successes [⟨true, 200, 80, none⟩] 1).2.2
      (by simp)
    simpa using h

/-- C3 (counterexample): for a batch with one success and one failure
completed in 1 s, `run_real_network_load_test` reports a throughput of 2
req/s (total attempts / elapsed), not 1 req/s (successes / elapsed) as the
claim states. -/
theorem real_network_throughput_cex :
    (run_real_network_metrics
        [⟨true, 200, 100, none⟩, ⟨false, 0, 900, some "timeout"⟩]
        1).throughput_req_s = some 2 ∧
      ((run_real_network_metrics
        [⟨true, 200, 100, none⟩, ⟨false, 0, 900, some "timeout"⟩]
        1).successful_requests : ℚ) / 1 = 1 ∧
      (2 : ℚ) ≠ 1 := by
  refine ⟨?_, ?_, by norm_num⟩
  · simp [run_real_network_metrics]
  · simp [run_real_network_metrics]

/-- C3 (amended): `analyze_performance` divides the successful count by the
batch's elapsed seconds, while `run_real_network_load_test` divides the
TOTAL attempt count by the elapsed seconds. -/
theorem throughput_formulas (results : List RequestResult) (td : ℚ)
    (h : 0 < td) :
    (analyze_performance results td).throughput_req_per_sec
        = ((results.filter (·.success)).length : ℚ) / td ∧
      (run_real_network_metrics results td).throughput_req_s
        = some ((results.length : ℚ) / td) := by
  constructor
  · simp [analyze_performance, if_pos h]
  · simp [run_real_network_metrics, h.ne']

/-- C3 witness: `throughput_formulas` on a concrete two-attempt batch with
elapsed time 1 s. -/
theorem throughput_formulas_witness :
    (analyze_performance
        [⟨true, 200, 100, none⟩, ⟨false, 0, 900, some "t"⟩]
        1).throughput_req_per_sec
      = (([⟨true, 200, 100, none⟩,
          ⟨false, 0, 900, some "t"⟩] : List RequestResult).filter
            (·.success)).length / 1 :=
  (throughput_formulas
    [⟨true, 200, 100, none⟩, ⟨false, 0, 900, some "t"⟩] 1 (by norm_num)).1

/-- C4 (counterexample): for the empty batch,
`run_real_network_load_test`'s `success_rate = successful / len(results)`
is an unguarded division by zero (a Python `ZeroDivisionError`, modelled
`none`), not the claimed `0`. -/
theorem empty_batch_real_network_cex :
    (run_real_network_metrics [] 1).success_rate = none ∧
      (none : Option ℚ) ≠ some 0 :=
  ⟨rfl, by simp⟩

/-- C4 (amended): on an empty batch `analyze_performance` reports
`success_rate = 0` with no division (guarded by `if results else 0`),
while `run_real_network_load_test` performs the division by the zero total
count and raises. -/
theorem empty_batch_success_rate (td : ℚ) :
    (analyze_performance [] td).success_rate_percent = 0 ∧
      (run_real_network_metrics [] td).success_rate = none := by
  constructor
  · simp [analyze_performance]
  · simp [run_real_network_metrics]

/-- C5: with an active network profile, whenever the uniform draw `u` is
below the profile's `packet_loss_rate`, `simulate_real_request` raises the
injected `ConnectionError` at once: no network delay is slept, no
bandwidth delay is slept, and the wrapped operation is never invoked. -/
theorem packet_loss_short_circuits (p : NetworkProfile)
    (u jitterSample bwSample : ℚ) (op : HttpResponse)
    (h : u < p.packet_loss_rate) :
    (simulate_real_request (some p) u jitterSample bwSample op).outcome
        = SimOutcome.packetLoss ∧
      (simulate_real_request (some p) u jitterSample bwSample
        op).networkDelaySlept = none ∧
      (simulate_real_request (some p) u jitterSample bwSample
        op).bandwidthDelaySlept = none ∧
      (simulate_real_request (some p) u jitterSample bwSample op).opInvoked
        = false := by
  have hl : simulate_packet_loss (some p) u = true := by
    simp [simulate_packet_loss, h]
  simp [simulate_real_request, hl]

/-- C5 witness: `packet_loss_short_circuits` on the catalog's `wan_poor`
profile (loss rate 1/10) with the draw `u = 1/20`. -/
theorem packet_loss_short_circuits_witness :
    (1 / 20 : ℚ) < (1 / 10 : ℚ) ∧
      (simulate_real_request (some ⟨"Poor WAN Connection", 200, 50, 1/10, 5⟩)
        (1/20) 0 1 ⟨200, 100⟩).opInvoked = false :=
  ⟨by norm_num,
    (packet_loss_short_circuits ⟨"Poor WAN Connection", 200, 50, 1/10, 5⟩
      (1/20) 0 1 ⟨200, 100⟩ (by norm_num)).2.2.2⟩

/-- C6 (code bug, evaluated at the failing input): applying
`enterprise_lan` and then calling `clear_simulation` leaves the server
load `light` active — `clear_simulation` never clears
`server_sim.active_load`, contradicting its own docstring "Clear all
simulations" — so a subsequent wrapped request still sleeps the injected
cpu (5 ms) and io (10 ms) server processing delays (with unit Gaussian
variates) instead of being a pass-through. -/
theorem clear_simulation_keeps_server_load :
    (apply_real_world_scenario initialRealWorldState "enterprise_lan").map
        clear_simulation
      = some ⟨none, some ⟨"Light Load", 5, 1/10, 10⟩, none⟩ ∧
      simulate_server_processing (some ⟨"Light Load", 5, 1/10, 10⟩) 1 1
        = [1/200, 1/100] ∧
      ([1/200, 1/100] : List ℚ) ≠ [] := by
  refine ⟨?_, ?_, by simp⟩
  · simp [apply_real_world_scenario, scenarios, network_profiles,
      load_profiles, initialRealWorldState, clear_simulation]
  · simp [simulate_server_processing]
    norm_num


/-- C7: every attempt is wrapped in a local failure boundary — the batch
returns exactly one record per scheduled attempt, and an attempt whose
wrapped call raised exception `e` yields the record
`{success := false, status_code := 0, duration_ms := elapsed so far,
error := some e}` without preventing the other attempts (the batch length
stays `n`). -/
theorem attempt_failure_boundary (n : ℕ)
    (outcomes : ℕ → Except String HttpResponse) (elapsed_ms : ℕ → ℚ) :
    (run_real_network_load_test n outcomes elapsed_ms).length = n ∧
      ∀ i, i < n → ∀ e, outcomes i = .error e →
        (run_real_network_load_test n outcomes elapsed_ms).getD i
            ⟨true, 0, 0, none⟩
          = ⟨false, 0, elapsed_ms i, some e⟩ := by
  constructor
  · simp [run_real_network_load_test]
  · intro i hi e he
    simp [run_real_network_load_test, List.getD, List.getElem?_map,
      List.getElem?_range, hi, execute_real_network_request, he]

/-- C7 witness: a three-attempt batch whose second attempt raises
`"timeout"`; `attempt_failure_boundary` turns it into a failed record with
the elapsed duration while the batch still has one record per attempt. -/
theorem attempt_failure_boundary_witness :
    (run_real_network_load_test 3
        (fun i => if i = 1 then Except.error "timeout"
          else Except.ok ⟨200, 10⟩)
        (fun i => 100 * ((i : ℚ) + 1))).getD 1 ⟨true, 0, 0, none⟩
      = ⟨false, 0, 200, some "timeout"⟩ := by
  have h := (attempt_failure_boundary 3
      (fun i => if i = 1 then Except.error "timeout" else Except.ok ⟨200, 10⟩)
      (fun i => 100 * ((i : ℚ) + 1))).2 1 (by norm_num) "timeout" (by simp)
  rw [h]
  norm_num


/-- C8 (counterexample): with both groups normal and a Levene p-value of
0.01 at alpha 0.05 (variances differing), the optimized comparator still
runs no Levene test and uses the default equal-variance t-test, while the
archived comparator would have selected `equal_var=False` — so the claim
that the comparator runs a Levene test and switches to Welch's formula is
false for `OptimizedStatisticalAnalyzer.compare_metrics`. -/
theorem optimized_skips_levene_cex :
    (optimized_select_test true).leveneRun = false ∧
      (optimized_select_test true).equalVar = some true ∧
      (archived_select_test true (1/100) (1/20)).equalVar = some false := by
  refine ⟨rfl, rfl, ?_⟩
  norm_num [archived_select_test]

/-- C8 (amended): the archived analyzer behaves as claimed — when both
groups pass normality it runs Levene and passes
`equal_var = (levene_p > alpha)` to the independent t-test, otherwise a
two-sided Mann-Whitney U test; the optimized analyzer runs the same
Mann-Whitney branch but, when both groups are normal, always uses the
default equal-variance t-test with no Levene test. -/
theorem test_selection_by_normality (levene_p alpha : ℚ) :
    archived_select_test true levene_p alpha
        = ⟨"Independent t-test", some (decide (alpha < levene_p)), true⟩ ∧
      archived_select_test false levene_p alpha
        = ⟨"Mann-Whitney U test", none, false⟩ ∧
      optimized_select_test true = ⟨"Independent t-test", some true, false⟩ ∧
      optimized_select_test false = ⟨"Mann-Whitney U test", none, false⟩ :=
  ⟨rfl, rfl, rfl, rfl⟩

/-- C9 (counterexample): for two groups of identical values the archived
`calculate_cohens_d` performs its division with the zero pooled standard
deviation — there is no guard — so the claim that the division is never
performed with a zero divisor (and that `0`/`negligible` is reported) is
false for `StatisticalAnalyzer.calculate_cohens_d`. -/
theorem cohens_d_divzero_cex :
    calculate_cohens_d [1, 1, 1] [1, 1, 1] = CohensD.divByZero ∧
      CohensD.divByZero ≠ CohensD.exact 0 := by
  refine ⟨?_, by simp⟩
  have h : pooled_var [1, 1, 1] [(1 : ℚ), 1, 1] = 0 := by
    norm_num [pooled_var, sampleVar, listMean]
  simp [calculate_cohens_d, h]

/-- C9 (amended): the optimized analyzer guards the division — whenever
`pooled_std > 0` fails it reports Cohen's d `= 0` without dividing (it
computes no `negligible` category at all) — while the archived
`calculate_cohens_d` divides unguarded whenever the pooled variance is
zero. -/
theorem cohens_d_zero_variance_guard (g1 g2 : List ℚ) :
    (¬ 0 < pooled_var g1 g2 →
        optimized_cohens_d g1 g2 = CohensD.exact 0) ∧
      (pooled_var g1 g2 = 0 →
        calculate_cohens_d g1 g2 = CohensD.divByZero) := by
  constructor
  · intro h
    simp [optimized_cohens_d, h]
  · intro h
    simp [calculate_cohens_d, h]

/-- C9 witness: `cohens_d_zero_variance_guard` on two constant groups
(zero variance in both). -/
theorem cohens_d_zero_variance_guard_witness :
    pooled_var [2, 2, 2] [5, 5, 5] = 0 ∧
      optimized_cohens_d [2, 2, 2] [5, 5, 5] = CohensD.exact 0 := by
  have h : pooled_var [2, 2, 2] [(5 : ℚ), 5, 5] = 0 := by
    norm_num [pooled_var, sampleVar, listMean]
  exact ⟨h, (cohens_d_zero_variance_guard [2, 2, 2] [5, 5, 5]).1
    (by rw [h]; norm_num)⟩

/-- C10 (counterexample): for the higher-is-better metric `"throughputs"`
with group means 0 and 5 (both groups of size 3, larger mean nonzero),
the archived comparator divides the improvement by `min(om, cm) = 0` and
raises `ZeroDivisionError` — no winner is declared at all, refuting the
claim that winner determination always yields one of the two variants. -/
theorem archived_winner_divzero_cex :
    archived_winner "throughputs" [0, 0, 0] [5, 5, 5] = none ∧
      max (listMean [0, 0, 0]) (listMean [5, 5, 5]) ≠ 0 ∧
      ([0, 0, 0] : List ℚ).length = 3 ∧
      ([5, 5, 5] : List ℚ).length = 3 := by
  have h0 : listMean [(0 : ℚ), 0, 0] = 0 := by norm_num [listMean]
  have h5 : listMean [(5 : ℚ), 5, 5] = 5 := by norm_num [listMean]
  refine ⟨?_, ?_, rfl, rfl⟩
  · simp [archived_winner, h0, h5]
  · rw [h0, h5]
    norm_num

/-- C10 (amended): whenever the larger group mean is nonzero, the
optimized comparator declares exactly one of the two variants per metric
(ties under the strict mean comparison go to `"choreographed"`, with
improvement 0); the archived comparator does the same provided,
additionally, the SMALLER mean is also nonzero (its improvement
denominator for higher-is-better metrics is `min`, not `max`). -/
theorem winner_determination (metric : String) (orch choreo : List ℚ)
    (hmax : max (listMean orch) (listMean choreo) ≠ 0) :
    (∃ w₁, optimized_winner metric orch choreo = some w₁ ∧
        (w₁.winner = "orchestrated" ∨ w₁.winner = "choreographed") ∧
        (listMean orch = listMean choreo →
          w₁.winner = "choreographed" ∧ w₁.improvement_percent = 0)) ∧
      (min (listMean orch) (listMean choreo) ≠ 0 →
        ∃ w₂, archived_winner metric orch choreo = some w₂ ∧
          (w₂.winner = "orchestrated" ∨ w₂.winner = "choreographed") ∧
          (listMean orch = listMean choreo →
            w₂.winner = "choreographed" ∧ w₂.improvement_percent = 0)) := by
  simp only [optimized_winner, archived_winner]
  by_cases hm : metric = "latencies" ∨ metric = "p95_latencies"
  · rw [if_pos hm, if_pos hm, if_neg hmax, if_neg hmax]
    constructor
    · refine ⟨_, rfl, ?_, ?_⟩
      · by_cases hlt : listMean orch < listMean choreo <;> simp [hlt]
      · intro he
        simp [he]
    · intro _hmin
      refine ⟨_, rfl, ?_, ?_⟩
      · by_cases hlt : listMean orch < listMean choreo <;> simp [hlt]
      · intro he
        simp [he]
  · rw [if_neg hm, if_neg hm, if_neg hmax]
    constructor
    · refine ⟨_, rfl, ?_, ?_⟩
      · by_cases hgt : listMean choreo < listMean orch <;> simp [hgt]
      · intro he
        simp [he]
    · intro hmin
      rw [if_neg hmin]
      refine ⟨_, rfl, ?_, ?_⟩
      · by_cases hgt : listMean choreo < listMean orch <;> simp [hgt]
      · intro he
        simp [he]

/-- C10 witness: `winner_determination` applied at two concrete inputs —
the latency metric with equal-mean groups (the tie goes to
`"choreographed"` with improvement 0 in both analyzers), and the
higher-is-better metric `"throughputs"` with means 0 and 5, where the
optimized analyzer still declares a winner although the smaller mean is
zero. -/
theorem winner_determination_witness :
    ((∃ w₁, optimized_winner "latencies" [100] [100] = some w₁ ∧
        (w₁.winner = "orchestrated" ∨ w₁.winner = "choreographed") ∧
        (listMean [100] = listMean [100] →
          w₁.winner = "choreographed" ∧ w₁.improvement_percent = 0)) ∧
      (∃ w₂, archived_winner "latencies" [100] [100] = some w₂ ∧
        (w₂.winner = "orchestrated" ∨ w₂.winner = "choreographed") ∧
        (listMean [100] = listMean [100] →
          w₂.winner = "choreographed" ∧ w₂.improvement_percent = 0))) ∧
      (∃ w₃, optimized_winner "throughputs" [0, 0, 0] [5, 5, 5] = some w₃ ∧
        (w₃.winner = "orchestrated" ∨ w₃.winner = "choreographed") ∧
        (listMean [0, 0, 0] = listMean [5, 5, 5] →
          w₃.winner = "choreographed" ∧ w₃.improvement_percent = 0)) :=
  ⟨⟨(winner_determination "latencies" [100] [100] (by norm_num [listMean])).1,
      (winner_determination "latencies" [100] [100]
        (by norm_num [listMean])).2 (by norm_num [listMean])⟩,
    (winner_determination "throughputs" [0, 0, 0] [5, 5, 5]
      (by norm_num [listMean])).1⟩

